import Mathlib

/-!
Shallow embedding of the detection and process-supervision core of the
sec-camera-dashboard backend (backend/services/person_detector.py,
backend/services/rtsp_recorder.py, backend/services/hls_streamer.py),
together with theorems settling the frozen claims about it.

Times, durations, scores, areas and sizes are modelled as rationals;
the image-library stages (background subtraction, morphology, contour
extraction, object classification) are treated as external producers of
the contour lists and detection lists that the embedded logic consumes,
exactly at the boundary where the source hands their results to its own
arithmetic.
-/

namespace SecCam

/-! ## Foreground segmentation: contour stage of _compute_motion_score -/

/-- A connected foreground region found in the subtraction mask: its area
(cv2.contourArea) and the width and height of its bounding rectangle
(cv2.boundingRect). -/
structure Contour where
  area : ℚ
  rectW : ℚ
  rectH : ℚ
deriving DecidableEq

/-- Result of _compute_motion_score: a score in [0,100] plus the
global-change flag. -/
structure MotionResult where
  score : ℚ
  isGlobalChange : Bool
deriving DecidableEq

/-- The contours surviving the noise floor: the loop in
_compute_motion_score skips any contour with area < frame_area * 0.001. -/
def validContours (frameArea : ℚ) (cs : List Contour) : List Contour :=
  cs.filter (fun c => !decide (c.area < frameArea * (1/1000)))

/-- total_area accumulated over the valid contours. -/
def totalArea (cs : List Contour) : ℚ :=
  (cs.map (fun c => c.area)).sum

/-- The (max_area, max_rect) pair accumulated by the filtering loop:
max_area starts at 0 and max_rect at none; both are updated whenever a
contour's area strictly exceeds the current max_area. -/
def maxScan (cs : List Contour) : ℚ × Option (ℚ × ℚ) :=
  cs.foldl
    (fun p c => if c.area > p.1 then (c.area, some (c.rectW, c.rectH)) else p)
    ((0 : ℚ), none)

/-- band_like: the largest region's bounding rectangle spans strictly more
than 85% of one frame dimension and strictly more than 25% of the other. -/
def bandLike (width height : ℚ) : Option (ℚ × ℚ) → Bool
  | none => false
  | some r =>
      (decide (r.1 > width * (85/100)) && decide (r.2 > height * (25/100))) ||
      (decide (r.2 > height * (85/100)) && decide (r.1 > width * (25/100)))

/-- _compute_motion_score from the contour stage on: noise-filter the
contours, compute area_ratio, flag a global change when any of the four
conditions holds (returning score 0), otherwise score
min(100, area_ratio * 1000). The frame_area <= 0 guard mirrors the source. -/
def computeMotionScore (width height : ℚ) (cs : List Contour) : MotionResult :=
  if height * width ≤ 0 then ⟨0, false⟩
  else
    let valid := validContours (height * width) cs
    if totalArea valid / (height * width) > 1/2 ∨
       (maxScan valid).1 > (height * width) * (4/10) ∨
       bandLike width height (maxScan valid).2 = true ∨
       50 < valid.length
    then ⟨0, true⟩
    else ⟨min 100 (totalArea valid / (height * width) * 1000), false⟩

/-! ## Adaptive sampling: _update_sampling_rate -/

/-- FAST_INTERVAL = 0.2 s (5 FPS while motion is detected). -/
def FAST_INTERVAL : ℚ := 2/10

/-- NORMAL_INTERVAL = 0.5 s (2 FPS normal monitoring). -/
def NORMAL_INTERVAL : ℚ := 5/10

/-- IDLE_INTERVAL = 1.0 s (1 FPS when idle for a while). -/
def IDLE_INTERVAL : ℚ := 1

/-- The sampling-related state of the detector: _current_interval and
_last_motion_time. -/
structure SamplingState where
  currentInterval : ℚ
  lastMotionTime : Option ℚ
deriving DecidableEq

/-- _update_sampling_rate: with motion, switch to FAST and record the
motion timestamp; without motion, pick the interval from the idle time
since the last motion (> 30 s idle, > 5 s normal, else fast), defaulting
to NORMAL when no motion was ever recorded. -/
def updateSamplingRate (st : SamplingState) (hasMotion : Bool) (now : ℚ) : SamplingState :=
  if hasMotion then
    { currentInterval := FAST_INTERVAL, lastMotionTime := some now }
  else
    match st.lastMotionTime with
    | some t =>
        if now - t > 30 then { st with currentInterval := IDLE_INTERVAL }
        else if now - t > 5 then { st with currentInterval := NORMAL_INTERVAL }
        else { st with currentInterval := FAST_INTERVAL }
    | none => { st with currentInterval := NORMAL_INTERVAL }

/-! ## Frame step: the motion-gating part of _process_frame -/

/-- The per-frame mutable state used by _process_frame's motion gating:
_motion_frame_count plus the sampling state. -/
structure FrameState where
  motionFrameCount : ℕ
  sampling : SamplingState
deriving DecidableEq

/-- The motion-gating step of _process_frame: a global change resets the
consecutive-motion counter and is treated as no motion; a score at or
above the threshold increments the counter and confirms once the counter
reaches consecutive_frames_required (the returned flag); anything else
resets the counter. -/
def processFrameMotion (threshold : ℚ) (requiredFrames : ℕ) (st : FrameState)
    (now : ℚ) (mr : MotionResult) : FrameState × Bool :=
  if mr.isGlobalChange then
    ({ motionFrameCount := 0,
       sampling := updateSamplingRate st.sampling false now }, false)
  else if mr.score ≥ threshold then
    ({ motionFrameCount := st.motionFrameCount + 1,
       sampling := updateSamplingRate st.sampling true now },
     decide (st.motionFrameCount + 1 ≥ requiredFrames))
  else
    ({ motionFrameCount := 0,
       sampling := updateSamplingRate st.sampling false now }, false)

/-! ## Detection handling: _handle_detection -/

/-- One object detection returned by _run_detection: class label and
confidence (already scaled to 0-100). The bounding box is irrelevant to
the embedded policy logic. -/
structure Detection where
  cls : String
  confidence : ℚ
deriving DecidableEq

/-- The runtime settings fields _handle_detection reads, plus the
detection threshold consumed by _process_frame. -/
structure RuntimeSettings where
  telegramEnabled : Bool
  notificationCooldownSeconds : ℚ
  detectionThreshold : ℚ
deriving DecidableEq

/-- The notification-cooldown state of the detector: _last_detection_time,
updated only when a notification is dispatched. -/
structure DetectorState where
  lastDetectionTime : Option ℚ
deriving DecidableEq

/-- The record handed to event_store.add_event. -/
structure StoredEvent where
  timestamp : ℚ
  confidence : ℚ
  thumbnailPath : Option String
  analysis : String
  analysisConfidence : ℚ
  analysisImportance : ℕ
  analysisSendGif : Bool
deriving DecidableEq

/-- The record handed to ws_manager.send_detection_event. -/
structure BroadcastEvent where
  timestamp : ℚ
  confidence : ℚ
  thumbnailPath : Option String
deriving DecidableEq

/-- The record handed to notification_service.send_detection_alert. -/
structure NotificationMsg where
  confidence : ℚ
  timestamp : ℚ
  analysisText : String
  analysisConfidence : ℚ
  sendGif : Bool
deriving DecidableEq

/-- has_person: any returned detection has class "person". -/
def hasPersonIn (ds : List Detection) : Bool :=
  ds.any (fun d => d.cls == "person")

/-- has_animal: any returned detection has class cat, dog or bird. -/
def hasAnimalIn (ds : List Detection) : Bool :=
  ds.any (fun d => d.cls == "cat" || d.cls == "dog" || d.cls == "bird")

/-- max(d["confidence"] for d in detections) over a nonempty list. -/
def maxConfidence (d : Detection) (rest : List Detection) : ℚ :=
  rest.foldl (fun m x => max m x.confidence) d.confidence

/-- confidence as _handle_detection computes it: the maximum detection
confidence, or the motion score when no detections exist. -/
def detectorConfidence (motionScore : ℚ) : List Detection → ℚ
  | [] => motionScore
  | d :: rest => maxConfidence d rest

/-- The human-readable summary built by _handle_detection. -/
def detectionSummary (motionScore : ℚ) (ds : List Detection) : String :=
  match ds with
  | [] => "Motion detected (" ++ toString motionScore ++ "%)"
  | _ => "Detected: " ++ String.intercalate ", " ((ds.map (fun d => d.cls)).dedup)

/-- The importance ladder of _handle_detection: high-confidence person 5,
person 4, monitored animal 2, anything else 1. -/
def importanceScore (hasPerson : Bool) (confidence : ℚ) (hasAnimal : Bool) : ℕ :=
  if hasPerson && decide (confidence ≥ 70) then 5
  else if hasPerson then 4
  else if hasAnimal then 2
  else 1

/-- The cooldown test of _handle_detection: passes when no notification
was ever dispatched, or when now - last >= cooldown. -/
def cooldownPassed (last : Option ℚ) (now cooldown : ℚ) : Bool :=
  match last with
  | none => true
  | some t => decide (now - t ≥ cooldown)

/-- Everything _handle_detection produces in one call: the stored event,
the WebSocket broadcast, the optional notification, and the updated
cooldown state. -/
structure HandleResult where
  event : StoredEvent
  broadcast : BroadcastEvent
  notification : Option NotificationMsg
  state : DetectorState

/-- _handle_detection: derive (confidence, has_person, has_animal, summary)
from the detections and motion score, score the importance, build and emit
the stored event and the broadcast unconditionally, then run the nested
notification gate (telegram_enabled, cooldown, person-or-importance),
recording the cooldown timestamp in the same step that fires. -/
def handleDetection (rs : RuntimeSettings) (st : DetectorState) (now motionScore : ℚ)
    (ds : List Detection) (thumbnailRelative : Option String) : HandleResult :=
  let confidence := detectorConfidence motionScore ds
  let hasPerson := hasPersonIn ds
  let hasAnimal := hasAnimalIn ds
  let summary := detectionSummary motionScore ds
  let importance := importanceScore hasPerson confidence hasAnimal
  let shouldSendGif := decide (importance ≥ 4)
  let event : StoredEvent :=
    { timestamp := now, confidence := confidence, thumbnailPath := thumbnailRelative,
      analysis := summary, analysisConfidence := confidence,
      analysisImportance := importance, analysisSendGif := shouldSendGif }
  let broadcast : BroadcastEvent :=
    { timestamp := now, confidence := confidence, thumbnailPath := thumbnailRelative }
  let notifPair : Option NotificationMsg × DetectorState :=
    if rs.telegramEnabled then
      if cooldownPassed st.lastDetectionTime now rs.notificationCooldownSeconds then
        if hasPerson || decide (importance ≥ 3) then
          (some { confidence := confidence, timestamp := now, analysisText := summary,
                  analysisConfidence := confidence, sendGif := shouldSendGif },
           { lastDetectionTime := some now })
        else (none, st)
      else (none, st)
    else (none, st)
  { event := event, broadcast := broadcast,
    notification := notifPair.1, state := notifPair.2 }

/-! ## Process supervision: _recording_loop / _streaming_loop backoff -/

/-- The backoff update applied after every reconnect wait:
retry_delay := min(retry_delay * 2, 60). -/
def backoffNext (d : ℚ) : ℚ := min (d * 2) 60

/-- Observed reconnect delays of _recording_loop, one per failed session.
A failed session is summarized by the gap (in seconds) between its last
observed output - a timestamp initialized at process spawn and refreshed
whenever the tracked output size grows - and its exit. The loop resets
retry_delay to 5 whenever that gap is under 10 s, then waits retry_delay
and doubles it (capped at 60). -/
def recorderRetryDelays : ℚ → List ℚ → List ℚ
  | _, [] => []
  | retryDelay, gap :: rest =>
      let rd := if gap < 10 then (5 : ℚ) else retryDelay
      rd :: recorderRetryDelays (backoffNext rd) rest

/-- Observed reconnect delays of _streaming_loop over n consecutive failed
sessions: the loop never resets retry_delay, it only waits and doubles it
(capped at 60). -/
def hlsRetryDelays : ℚ → ℕ → List ℚ
  | _, 0 => []
  | retryDelay, Nat.succ n => retryDelay :: hlsRetryDelays (backoffNext retryDelay) n

/-! ## Stall detection: the monitor loop of _recording_loop -/

/-- One tracked output segment file in the dated output directory: its
name and its observed size. -/
structure SegmentFile where
  name : String
  size : ℚ
deriving DecidableEq

/-- The stall-tracking state of the recorder monitor loop: known_files,
_last_output_time and last_total_size. -/
structure RecMonitorState where
  knownFiles : List String
  lastOutputTime : ℚ
  lastTotalSize : ℚ
deriving DecidableEq

/-- The recorder monitor loop over a schedule of polls taken every 5 s
while the process is alive, each a (time, segment files seen in the dated
output directory) pair. A poll first refreshes _last_output_time if any
seen file is new relative to known_files, then replaces known_files and
sums the seen sizes; growth beyond last_total_size refreshes
_last_output_time and last_total_size; otherwise, once
now - _last_output_time exceeds the stall timeout, the process is
terminated and the termination time returned. none means the schedule
ended with the process still running. -/
def recorderMonitorPolls (stallTimeout : ℚ) :
    RecMonitorState → List (ℚ × List SegmentFile) → Option ℚ
  | _, [] => none
  | st, (t, files) :: rest =>
      let currentFiles := files.map (fun f => f.name)
      let lastOut :=
        if currentFiles.any (fun n => !decide (n ∈ st.knownFiles)) then t
        else st.lastOutputTime
      let currentTotalSize := (files.map (fun f => f.size)).sum
      if currentTotalSize > st.lastTotalSize then
        recorderMonitorPolls stallTimeout
          { knownFiles := currentFiles, lastOutputTime := t,
            lastTotalSize := currentTotalSize } rest
      else if t - lastOut > stallTimeout then some t
      else recorderMonitorPolls stallTimeout
          { knownFiles := currentFiles, lastOutputTime := lastOut,
            lastTotalSize := st.lastTotalSize } rest

/-- A poll schedule on which a brand-new zero-size segment file appears at
every 5 s poll while the total tracked output size never grows. -/
def newEmptySegmentPolls : List (ℚ × List SegmentFile) :=
  [(5, [⟨"s1", 0⟩]),
   (10, [⟨"s1", 0⟩, ⟨"s2", 0⟩]),
   (15, [⟨"s1", 0⟩, ⟨"s2", 0⟩, ⟨"s3", 0⟩]),
   (20, [⟨"s1", 0⟩, ⟨"s2", 0⟩, ⟨"s3", 0⟩, ⟨"s4", 0⟩]),
   (25, [⟨"s1", 0⟩, ⟨"s2", 0⟩, ⟨"s3", 0⟩, ⟨"s4", 0⟩, ⟨"s5", 0⟩]),
   (30, [⟨"s1", 0⟩, ⟨"s2", 0⟩, ⟨"s3", 0⟩, ⟨"s4", 0⟩, ⟨"s5", 0⟩, ⟨"s6", 0⟩]),
   (35, [⟨"s1", 0⟩, ⟨"s2", 0⟩, ⟨"s3", 0⟩, ⟨"s4", 0⟩, ⟨"s5", 0⟩, ⟨"s6", 0⟩, ⟨"s7", 0⟩]),
   (40, [⟨"s1", 0⟩, ⟨"s2", 0⟩, ⟨"s3", 0⟩, ⟨"s4", 0⟩, ⟨"s5", 0⟩, ⟨"s6", 0⟩, ⟨"s7", 0⟩,
         ⟨"s8", 0⟩])]

/-! ## stop(): RTSPRecorder.stop / HLSStreamer.stop -/

/-- The supervisor state that stop() touches: the desired-running flag,
whether a process handle is held (_process is not None), and whether a
monitor task handle is held (_task is not None; never cleared). -/
structure SupervisorState where
  running : Bool
  processAlive : Bool
  hasTask : Bool
deriving DecidableEq

/-- The externally observable effects of one stop() call. -/
inductive StopEffect
  | terminateProcess
  | cancelTask
  | statusStopped
deriving DecidableEq

/-- stop(): clear the running flag; terminate the process if a handle is
held (escalating to kill after the 5 s grace window) and drop the handle;
cancel the monitor task if one is held (the task handle is not cleared);
finally always publish a "stopped" status event. -/
def stopSupervisor (st : SupervisorState) : SupervisorState × List StopEffect :=
  ({ running := false, processAlive := false, hasTask := st.hasTask },
   (if st.processAlive then [StopEffect.terminateProcess] else []) ++
   (if st.hasTask then [StopEffect.cancelTask] else []) ++
   [StopEffect.statusStopped])

/-- The effects of two successive stop() calls. -/
def doubleStopEffects (st : SupervisorState) : List StopEffect :=
  (stopSupervisor st).2 ++ (stopSupervisor (stopSupervisor st).1).2

/-! ## HLS segment hygiene: HLSStreamer start/stop/_cleanup_old_segments -/

/-- File-name suffix test over the underlying character list (the form of
glob pattern, "*.ext", that _cleanup_old_segments uses). -/
def strHasSuffix (f s : String) : Bool :=
  decide (s.data.length ≤ f.data.length) &&
  decide (f.data.drop (f.data.length - s.data.length) = s.data)

/-- Whether a file name matches the "*.ts" glob of _cleanup_old_segments. -/
def isTsFile (f : String) : Bool := strHasSuffix f ".ts"

/-- Whether a file name matches the "*.m3u8" glob of _cleanup_old_segments. -/
def isM3u8File (f : String) : Bool := strHasSuffix f ".m3u8"

/-- _cleanup_old_segments: unlink every .ts and every .m3u8 file in the
output directory, modelled as a list of file names. -/
def cleanupOldSegments (files : List String) : List String :=
  files.filter (fun f => !(isTsFile f || isM3u8File f))

/-- The playlist file name used by get_playlist_path. -/
def playlistName : String := "stream.m3u8"

/-- is_playlist_ready: the playlist file exists in the output directory. -/
def isPlaylistReady (files : List String) : Bool :=
  files.contains playlistName

/-- The streamer state start/stop touch, beyond the file system. -/
structure HlsState where
  running : Bool
deriving DecidableEq

/-- HLSStreamer.start: a no-op when already running (nothing launched);
otherwise clean old segments and then launch the streaming loop. Returns
the new state, the files left on disk at launch time, and whether a new
transcoder session was launched. -/
def hlsStart (st : HlsState) (files : List String) : HlsState × List String × Bool :=
  if st.running then (st, files, false)
  else ({ running := true }, cleanupOldSegments files, true)

/-- HLSStreamer.stop: terminate the process and the loop, then clean old
segments again. Returns the new state and the files left on disk. -/
def hlsStop (_st : HlsState) (files : List String) : HlsState × List String :=
  ({ running := false }, cleanupOldSegments files)

/-! ## Helper lemmas -/

theorem any_new_false (fs : List SegmentFile) (known : List String)
    (hsub : ∀ n ∈ fs.map (fun f => f.name), n ∈ known) :
    (fs.map (fun f => f.name)).any (fun n => !decide (n ∈ known)) = false := by
  rw [List.any_eq_false]
  intro n hn
  simp [hsub n hn]

theorem recMonitor_skip (stallTimeout : ℚ) (st : RecMonitorState) (t : ℚ)
    (files : List SegmentFile) (rest : List (ℚ × List SegmentFile))
    (hnew : (files.map (fun f => f.name)).any (fun n => !decide (n ∈ st.knownFiles)) = false)
    (hgrow : ¬ (files.map (fun f => f.size)).sum > st.lastTotalSize)
    (hstall : ¬ t - st.lastOutputTime > stallTimeout) :
    recorderMonitorPolls stallTimeout st ((t, files) :: rest) =
      recorderMonitorPolls stallTimeout
        { knownFiles := files.map (fun f => f.name),
          lastOutputTime := st.lastOutputTime,
          lastTotalSize := st.lastTotalSize } rest := by
  simp [recorderMonitorPolls, hnew, hgrow, hstall]

theorem recMonitor_fire (stallTimeout : ℚ) (st : RecMonitorState) (t : ℚ)
    (files : List SegmentFile) (rest : List (ℚ × List SegmentFile))
    (hnew : (files.map (fun f => f.name)).any (fun n => !decide (n ∈ st.knownFiles)) = false)
    (hgrow : ¬ (files.map (fun f => f.size)).sum > st.lastTotalSize)
    (hstall : t - st.lastOutputTime > stallTimeout) :
    recorderMonitorPolls stallTimeout st ((t, files) :: rest) = some t := by
  simp [recorderMonitorPolls, hnew, hgrow, hstall]

theorem recMonitor_refresh (stallTimeout : ℚ) (st : RecMonitorState) (t : ℚ)
    (files : List SegmentFile) (rest : List (ℚ × List SegmentFile))
    (hnew : (files.map (fun f => f.name)).any (fun n => !decide (n ∈ st.knownFiles)) = true)
    (hgrow : ¬ (files.map (fun f => f.size)).sum > st.lastTotalSize)
    (hstall : ¬ stallTimeout < 0) :
    recorderMonitorPolls stallTimeout st ((t, files) :: rest) =
      recorderMonitorPolls stallTimeout
        { knownFiles := files.map (fun f => f.name), lastOutputTime := t,
          lastTotalSize := st.lastTotalSize } rest := by
  simp [recorderMonitorPolls, hnew, hgrow, hstall]

theorem cleanup_all_clean (files : List String) :
    (cleanupOldSegments files).all (fun f => !(isTsFile f || isM3u8File f)) = true := by
  rw [List.all_eq_true]
  intro f hf
  exact (List.mem_filter.mp hf).2

theorem cleanup_playlist_gone (files : List String) :
    isPlaylistReady (cleanupOldSegments files) = false := by
  unfold isPlaylistReady
  cases h : (cleanupOldSegments files).contains playlistName with
  | false => rfl
  | true =>
      exfalso
      have hm : playlistName ∈ cleanupOldSegments files := by
        have := List.elem_iff.mp h
        exact this
      have hp := (List.mem_filter.mp hm).2
      have hm3u8 : isM3u8File playlistName = true := by decide
      rw [hm3u8] at hp
      simp at hp

theorem computeMotionScore_pos (width height : ℚ) (cs : List Contour)
    (hpos : 0 < height * width) :
    computeMotionScore width height cs =
      if totalArea (validContours (height * width) cs) / (height * width) > 1/2 ∨
         (maxScan (validContours (height * width) cs)).1 > (height * width) * (4/10) ∨
         bandLike width height (maxScan (validContours (height * width) cs)).2 = true ∨
         50 < (validContours (height * width) cs).length
      then ⟨0, true⟩
      else ⟨min 100 (totalArea (validContours (height * width) cs) / (height * width) * 1000),
            false⟩ := by
  unfold computeMotionScore
  rw [if_neg (not_le.mpr hpos)]

theorem valid_lower (frameArea : ℚ) (cs : List Contour) (c : Contour)
    (hc : c ∈ validContours frameArea cs) :
    frameArea * (1/1000) ≤ c.area := by
  have h := (List.mem_filter.mp hc).2
  simp only [Bool.not_eq_true', decide_eq_false_iff_not, not_lt] at h
  exact h

theorem totalArea_lower (frameArea : ℚ) (cs : List Contour) (hpos : 0 < frameArea)
    (hne : validContours frameArea cs ≠ []) :
    frameArea * (1/1000) ≤ totalArea (validContours frameArea cs) := by
  cases h : validContours frameArea cs with
  | nil => exact absurd h hne
  | cons c rest =>
      have hcmem : c ∈ validContours frameArea cs := by
        rw [h]; exact List.mem_cons_self c rest
      have hcarea := valid_lower frameArea cs c hcmem
      have hrest : 0 ≤ totalArea rest := by
        apply List.sum_nonneg
        intro a ha
        rcases List.mem_map.mp ha with ⟨x, hx, rfl⟩
        have hxmem : x ∈ validContours frameArea cs := by
          rw [h]; exact List.mem_cons_of_mem c hx
        have := valid_lower frameArea cs x hxmem
        have hmin : 0 ≤ frameArea * (1/1000) := by positivity
        linarith
      have hexp : totalArea (c :: rest) = c.area + totalArea rest := by
        simp [totalArea]
      rw [hexp]
      linarith

theorem c5_formula (width height : ℚ) (cs : List Contour) (hpos : 0 < height * width)
    (hng : (computeMotionScore width height cs).isGlobalChange = false) :
    (computeMotionScore width height cs).score =
      min 100 (totalArea (validContours (height * width) cs) / (height * width) * 1000) := by
  by_cases hcond : (totalArea (validContours (height * width) cs) / (height * width) > 1/2 ∨
      (maxScan (validContours (height * width) cs)).1 > (height * width) * (4/10) ∨
      bandLike width height (maxScan (validContours (height * width) cs)).2 = true ∨
      50 < (validContours (height * width) cs).length)
  · rw [computeMotionScore_pos width height cs hpos, if_pos hcond] at hng
    simp at hng
  · rw [computeMotionScore_pos width height cs hpos, if_neg hcond]

theorem c5_noise_floor (width height : ℚ) (cs : List Contour) (hpos : 0 < height * width)
    (hsmall : totalArea (validContours (height * width) cs) / (height * width) < 1/1000) :
    computeMotionScore width height cs = ⟨0, false⟩ := by
  have hnil : validContours (height * width) cs = [] := by
    by_contra hne
    have hlow := totalArea_lower (height * width) cs hpos hne
    have h2 : (height * width) * (1/1000) / (height * width) ≤
        totalArea (validContours (height * width) cs) / (height * width) :=
      (div_le_div_iff_of_pos_right hpos).mpr hlow
    have h3 : (height * width) * (1/1000) / (height * width) = 1/1000 := by
      field_simp
      ring
    rw [h3] at h2
    linarith
  rw [computeMotionScore_pos width height cs hpos, hnil]
  have hmax : maxScan ([] : List Contour) = ((0 : ℚ), none) := rfl
  have hband : bandLike width height none = false := rfl
  rw [hmax, hband]
  simp only [totalArea, List.map_nil, List.sum_nil, zero_div, List.length_nil]
  have hnc : ¬ ((0:ℚ) > 1/2 ∨ (0:ℚ) > (height * width) * (4/10) ∨ (false = true) ∨ 50 < 0) := by
    push_neg
    refine ⟨by norm_num, by positivity, by simp, by norm_num⟩
  rw [if_neg hnc]
  norm_num

/-! ## Claim theorems -/

/-- C1: for every confirmed detection, the importance assigned by
_handle_detection is exactly the claimed pure function of (hasPerson,
confidence, hasAnimal) - with confidence the maximum detection confidence
or the motion score when no detections exist - and the send-clip flag
equals (importance >= 4). -/
theorem c1_importance_policy (rs : RuntimeSettings) (st : DetectorState)
    (now motionScore : ℚ) (ds : List Detection) (thumb : Option String) :
    (handleDetection rs st now motionScore ds thumb).event.analysisImportance =
      (if hasPersonIn ds = true ∧ detectorConfidence motionScore ds ≥ 70 then 5
       else if hasPersonIn ds = true then 4
       else if hasAnimalIn ds = true then 2
       else 1) ∧
    (handleDetection rs st now motionScore ds thumb).event.analysisSendGif =
      decide ((handleDetection rs st now motionScore ds thumb).event.analysisImportance ≥ 4) := by
  constructor
  · show importanceScore (hasPersonIn ds) (detectorConfidence motionScore ds) (hasAnimalIn ds) = _
    cases hp : hasPersonIn ds <;> cases ha : hasAnimalIn ds <;>
      by_cases hc : detectorConfidence motionScore ds ≥ 70 <;>
        simp [importanceScore, hc]
  · rfl

/-- C2: a notification is dispatched by _handle_detection exactly when
notifications are enabled, the cooldown test passes (vacuously with no
prior notification), and a person was detected or importance >= 3; the
cooldown timestamp is updated to now exactly on the calls that dispatch.
Concretely, two person detections 10 s apart dispatch once under a 60 s
cooldown and twice under cooldown 0. -/
theorem c2_notification_gate :
    (∀ (rs : RuntimeSettings) (st : DetectorState) (now motionScore : ℚ)
        (ds : List Detection) (thumb : Option String),
      (handleDetection rs st now motionScore ds thumb).notification.isSome =
        (rs.telegramEnabled &&
         (cooldownPassed st.lastDetectionTime now rs.notificationCooldownSeconds &&
          (hasPersonIn ds ||
           decide ((handleDetection rs st now motionScore ds thumb).event.analysisImportance ≥ 3)))) ∧
      (handleDetection rs st now motionScore ds thumb).state.lastDetectionTime =
        (if (handleDetection rs st now motionScore ds thumb).notification.isSome = true
         then some now else st.lastDetectionTime)) ∧
    ((handleDetection ⟨true, 60, 50⟩ ⟨none⟩ 0 0 [⟨"person", 80⟩] none).notification.isSome = true ∧
     (handleDetection ⟨true, 60, 50⟩
        (handleDetection ⟨true, 60, 50⟩ ⟨none⟩ 0 0 [⟨"person", 80⟩] none).state
        10 0 [⟨"person", 80⟩] none).notification.isSome = false) ∧
    ((handleDetection ⟨true, 0, 50⟩ ⟨none⟩ 0 0 [⟨"person", 80⟩] none).notification.isSome = true ∧
     (handleDetection ⟨true, 0, 50⟩
        (handleDetection ⟨true, 0, 50⟩ ⟨none⟩ 0 0 [⟨"person", 80⟩] none).state
        10 0 [⟨"person", 80⟩] none).notification.isSome = true) := by
  refine ⟨?_, ⟨?_, ?_⟩, ⟨?_, ?_⟩⟩
  · intro rs st now motionScore ds thumb
    cases hE : rs.telegramEnabled <;>
    cases hC : cooldownPassed st.lastDetectionTime now rs.notificationCooldownSeconds <;>
    cases hQ : (hasPersonIn ds ||
        decide (importanceScore (hasPersonIn ds) (detectorConfidence motionScore ds)
          (hasAnimalIn ds) ≥ 3)) <;>
    simp [handleDetection, hE, hC, hQ]
  · norm_num [handleDetection, cooldownPassed, hasPersonIn, hasAnimalIn,
      importanceScore, detectorConfidence, maxConfidence]
  · norm_num [handleDetection, cooldownPassed, hasPersonIn, hasAnimalIn,
      importanceScore, detectorConfidence, maxConfidence]
  · norm_num [handleDetection, cooldownPassed, hasPersonIn, hasAnimalIn,
      importanceScore, detectorConfidence, maxConfidence]
  · norm_num [handleDetection, cooldownPassed, hasPersonIn, hasAnimalIn,
      importanceScore, detectorConfidence, maxConfidence]

/-- C3: the stored event and the WebSocket broadcast produced by
_handle_detection are identical across any two runs on the same frame data
that differ only in the notification settings or the stored
last-notification timestamp (here: across arbitrary settings and cooldown
state) - persistence and broadcast never depend on the notification
gate. -/
theorem c3_emission_independent (rs rsB : RuntimeSettings) (st stB : DetectorState)
    (now motionScore : ℚ) (ds : List Detection) (thumb : Option String) :
    (handleDetection rs st now motionScore ds thumb).event =
      (handleDetection rsB stB now motionScore ds thumb).event ∧
    (handleDetection rs st now motionScore ds thumb).broadcast =
      (handleDetection rsB stB now motionScore ds thumb).broadcast :=
  ⟨rfl, rfl⟩

/-- C4 counterexample: a 100x100 frame with a single valid foreground
region of area 850 whose bounding box is 85 wide and 25 high. The box
spans at least 85% of one frame dimension and at least 25% of the other,
so the claim demands score 0 and isGlobalChange = true, but
_compute_motion_score uses strict comparisons in its band test and returns
score 85 with isGlobalChange = false. -/
theorem c4_counterexample :
    computeMotionScore 100 100 [⟨850, 85, 25⟩] = ⟨85, false⟩ ∧
    (maxScan (validContours ((100:ℚ) * 100) [⟨850, 85, 25⟩])).2 = some (85, 25) ∧
    (85:ℚ) ≥ 100 * (85/100) ∧ (25:ℚ) ≥ 100 * (25/100) := by
  refine ⟨?_, ?_, by norm_num, by norm_num⟩
  · norm_num [computeMotionScore, validContours, totalArea, maxScan, bandLike, List.filter]
  · norm_num [validContours, maxScan, List.filter]

/-- C4 amended: on a frame of positive area, _compute_motion_score flags a
global change (returning score 0) exactly when, after noise filtering, the
area ratio exceeds 0.5, a single region exceeds 40% of frame area, the
largest region's bounding box spans strictly more than 85% of one frame
dimension and strictly more than 25% of the other, or more than 50
distinct valid regions exist; and on a global-change frame the pipeline
resets the consecutive-motion counter to 0 and treats the frame as having
no motion, for every detection threshold. -/
theorem c4_amended (width height : ℚ) (cs : List Contour) (hpos : 0 < height * width) :
    (computeMotionScore width height cs =
      if totalArea (validContours (height * width) cs) / (height * width) > 1/2 ∨
         (maxScan (validContours (height * width) cs)).1 > (height * width) * (4/10) ∨
         bandLike width height (maxScan (validContours (height * width) cs)).2 = true ∨
         50 < (validContours (height * width) cs).length
      then ⟨0, true⟩
      else ⟨min 100 (totalArea (validContours (height * width) cs) / (height * width) * 1000),
            false⟩) ∧
    (∀ (threshold : ℚ) (required : ℕ) (st : FrameState) (now : ℚ),
      processFrameMotion threshold required st now ⟨0, true⟩ =
        ({ motionFrameCount := 0,
           sampling := updateSamplingRate st.sampling false now }, false)) :=
  ⟨computeMotionScore_pos width height cs hpos, fun _ _ _ _ => rfl⟩

/-- C4 witness: the amended theorem applied to a concrete 100x100 frame. -/
theorem c4_amended_witness :
    ((0:ℚ) < 100 * 100) ∧
    processFrameMotion 50 1 ⟨3, ⟨FAST_INTERVAL, some 0⟩⟩ 1 ⟨0, true⟩ =
      ({ motionFrameCount := 0,
         sampling := updateSamplingRate (⟨FAST_INTERVAL, some 0⟩ : SamplingState) false 1 },
       false) :=
  ⟨by norm_num, (c4_amended 100 100 [] (by norm_num)).2 50 1 ⟨3, ⟨FAST_INTERVAL, some 0⟩⟩ 1⟩

/-- C5 counterexample: a 100x100 frame with a single valid region of area
exactly 10 = 0.1% of frame area. The area ratio is exactly 0.001, which
the claim places at or below the noise floor (score 0), but
_compute_motion_score keeps the region (the skip test is strict) and
returns score min(100, 0.001 * 1000) = 1, not 0. -/
theorem c5_counterexample :
    computeMotionScore 100 100 [⟨10, 5, 5⟩] = ⟨1, false⟩ ∧
    totalArea (validContours ((100:ℚ) * 100) [⟨10, 5, 5⟩]) / ((100:ℚ) * 100) ≤ 1/1000 ∧
    (1:ℚ) ≠ 0 := by
  refine ⟨?_, ?_, by norm_num⟩
  · norm_num [computeMotionScore, validContours, totalArea, maxScan, bandLike, List.filter]
  · norm_num [validContours, totalArea, List.filter]

/-- C5 amended: on a frame of positive area, every frame not flagged as a
global change scores min(100, area_ratio * 1000), and every frame with
area ratio strictly below the 0.001 noise floor (equivalently: with no
valid region at all) scores exactly 0 with isGlobalChange = false. -/
theorem c5_amended (width height : ℚ) (cs : List Contour) (hpos : 0 < height * width) :
    ((computeMotionScore width height cs).isGlobalChange = false →
      (computeMotionScore width height cs).score =
        min 100 (totalArea (validContours (height * width) cs) / (height * width) * 1000)) ∧
    (totalArea (validContours (height * width) cs) / (height * width) < 1/1000 →
      computeMotionScore width height cs = ⟨0, false⟩) :=
  ⟨c5_formula width height cs hpos, c5_noise_floor width height cs hpos⟩

/-- C5 witness: the amended theorem applied to a concrete 100x100 frame
with no foreground region at all. -/
theorem c5_amended_witness :
    ((0:ℚ) < 100 * 100) ∧
    (totalArea (validContours ((100:ℚ) * 100) []) / ((100:ℚ) * 100) < 1/1000) ∧
    computeMotionScore 100 100 [] = ⟨0, false⟩ := by
  refine ⟨by norm_num, ?_, ?_⟩
  · norm_num [totalArea, validContours]
  · exact (c5_amended 100 100 [] (by norm_num)).2 (by norm_num [totalArea, validContours])

/-- C6: the spec claims that three consecutive supervised-process failures
produce observed retry delays of 5 s, 10 s, 20 s. Evaluating the recorder
loop at the failing input - three sessions that each die within 10 s of
their spawn (output gap 1 s) - shows that the reset branch of
_recording_loop fires every time, so the observed delays are 5 s, 5 s,
5 s; the HLS loop does double as claimed (but never resets to the floor). -/
theorem c6_backoff_eval :
    recorderRetryDelays 5 [1, 1, 1] = [5, 5, 5] ∧
    recorderRetryDelays 5 [1, 1, 1] ≠ [5, 10, 20] ∧
    hlsRetryDelays 5 3 = [5, 10, 20] ∧
    hlsRetryDelays 5 5 = [5, 10, 20, 40, 60] := by
  refine ⟨by decide, by decide, ?_, ?_⟩ <;>
    norm_num [hlsRetryDelays, backoffNext]

/-- C7 counterexample: starting from a fresh session (no known files,
tracked size 0), a schedule on which a brand-new zero-size segment file
appears at every 5 s poll keeps refreshing _last_output_time through the
new-segment branch of the monitor loop, so the process is never
terminated (the run returns none) even though the total tracked output
size stays at 0 - it never grows - for 40 s, beyond the claimed bound of
stall timeout (30 s) plus one poll interval (5 s). -/
theorem c7_counterexample :
    recorderMonitorPolls 30 ⟨[], 0, 0⟩ newEmptySegmentPolls = none ∧
    newEmptySegmentPolls.map (fun p => (p.2.map (fun f => f.size)).sum) =
      [0, 0, 0, 0, 0, 0, 0, 0] ∧
    (40 : ℚ) > 30 + 5 := by
  refine ⟨?_, by simp [newEmptySegmentPolls], by norm_num⟩
  have s1 : recorderMonitorPolls 30 ⟨[], 0, 0⟩ newEmptySegmentPolls =
      recorderMonitorPolls 30 ⟨["s1"], 5, 0⟩ (newEmptySegmentPolls.drop 1) :=
    recMonitor_refresh 30 ⟨[], 0, 0⟩ 5 [⟨"s1", 0⟩] _ (by decide) (by simp) (by norm_num)
  have s2 : recorderMonitorPolls 30 ⟨["s1"], 5, 0⟩ (newEmptySegmentPolls.drop 1) =
      recorderMonitorPolls 30 ⟨["s1", "s2"], 10, 0⟩ (newEmptySegmentPolls.drop 2) :=
    recMonitor_refresh 30 ⟨["s1"], 5, 0⟩ 10 [⟨"s1", 0⟩, ⟨"s2", 0⟩] _
      (by decide) (by simp) (by norm_num)
  have s3 : recorderMonitorPolls 30 ⟨["s1", "s2"], 10, 0⟩ (newEmptySegmentPolls.drop 2) =
      recorderMonitorPolls 30 ⟨["s1", "s2", "s3"], 15, 0⟩ (newEmptySegmentPolls.drop 3) :=
    recMonitor_refresh 30 ⟨["s1", "s2"], 10, 0⟩ 15 [⟨"s1", 0⟩, ⟨"s2", 0⟩, ⟨"s3", 0⟩] _
      (by decide) (by simp) (by norm_num)
  have s4 : recorderMonitorPolls 30 ⟨["s1", "s2", "s3"], 15, 0⟩ (newEmptySegmentPolls.drop 3) =
      recorderMonitorPolls 30 ⟨["s1", "s2", "s3", "s4"], 20, 0⟩ (newEmptySegmentPolls.drop 4) :=
    recMonitor_refresh 30 ⟨["s1", "s2", "s3"], 15, 0⟩ 20
      [⟨"s1", 0⟩, ⟨"s2", 0⟩, ⟨"s3", 0⟩, ⟨"s4", 0⟩] _
      (by decide) (by simp) (by norm_num)
  have s5 : recorderMonitorPolls 30 ⟨["s1", "s2", "s3", "s4"], 20, 0⟩
        (newEmptySegmentPolls.drop 4) =
      recorderMonitorPolls 30 ⟨["s1", "s2", "s3", "s4", "s5"], 25, 0⟩
        (newEmptySegmentPolls.drop 5) :=
    recMonitor_refresh 30 ⟨["s1", "s2", "s3", "s4"], 20, 0⟩ 25
      [⟨"s1", 0⟩, ⟨"s2", 0⟩, ⟨"s3", 0⟩, ⟨"s4", 0⟩, ⟨"s5", 0⟩] _
      (by decide) (by simp) (by norm_num)
  have s6 : recorderMonitorPolls 30 ⟨["s1", "s2", "s3", "s4", "s5"], 25, 0⟩
        (newEmptySegmentPolls.drop 5) =
      recorderMonitorPolls 30 ⟨["s1", "s2", "s3", "s4", "s5", "s6"], 30, 0⟩
        (newEmptySegmentPolls.drop 6) :=
    recMonitor_refresh 30 ⟨["s1", "s2", "s3", "s4", "s5"], 25, 0⟩ 30
      [⟨"s1", 0⟩, ⟨"s2", 0⟩, ⟨"s3", 0⟩, ⟨"s4", 0⟩, ⟨"s5", 0⟩, ⟨"s6", 0⟩] _
      (by decide) (by simp) (by norm_num)
  have s7 : recorderMonitorPolls 30 ⟨["s1", "s2", "s3", "s4", "s5", "s6"], 30, 0⟩
        (newEmptySegmentPolls.drop 6) =
      recorderMonitorPolls 30 ⟨["s1", "s2", "s3", "s4", "s5", "s6", "s7"], 35, 0⟩
        (newEmptySegmentPolls.drop 7) :=
    recMonitor_refresh 30 ⟨["s1", "s2", "s3", "s4", "s5", "s6"], 30, 0⟩ 35
      [⟨"s1", 0⟩, ⟨"s2", 0⟩, ⟨"s3", 0⟩, ⟨"s4", 0⟩, ⟨"s5", 0⟩, ⟨"s6", 0⟩, ⟨"s7", 0⟩] _
      (by decide) (by simp) (by norm_num)
  have s8 : recorderMonitorPolls 30 ⟨["s1", "s2", "s3", "s4", "s5", "s6", "s7"], 35, 0⟩
        (newEmptySegmentPolls.drop 7) =
      recorderMonitorPolls 30 ⟨["s1", "s2", "s3", "s4", "s5", "s6", "s7", "s8"], 40, 0⟩
        (newEmptySegmentPolls.drop 8) :=
    recMonitor_refresh 30 ⟨["s1", "s2", "s3", "s4", "s5", "s6", "s7"], 35, 0⟩ 40
      [⟨"s1", 0⟩, ⟨"s2", 0⟩, ⟨"s3", 0⟩, ⟨"s4", 0⟩, ⟨"s5", 0⟩, ⟨"s6", 0⟩, ⟨"s7", 0⟩,
       ⟨"s8", 0⟩] _
      (by decide) (by simp) (by norm_num)
  rw [s1, s2, s3, s4, s5, s6, s7, s8]
  rfl

/-- C7 amended: while the recorder's process is alive, if the total size
of the tracked output files has not grown and no new segment file has
appeared for longer than the stall timeout (default 30 s), the supervisor
terminates the process and schedules a restart, identically to a process
exit: polling every 5 s over segment files whose names are all already
known and whose total size never exceeds the tracked size, the process is
terminated at the 35 s poll - the stall timeout plus one poll interval -
however long the schedule would have continued. -/
theorem c7_amended (known : List String) (fs : List SegmentFile) (s0 : ℚ)
    (rest : List (ℚ × List SegmentFile))
    (hsub : ∀ n ∈ fs.map (fun f => f.name), n ∈ known)
    (htot : (fs.map (fun f => f.size)).sum ≤ s0) :
    recorderMonitorPolls 30 ⟨known, 0, s0⟩
      ((5, fs) :: (10, fs) :: (15, fs) :: (20, fs) :: (25, fs) :: (30, fs) ::
       (35, fs) :: rest) = some 35 ∧
    (35 : ℚ) ≤ 30 + 5 := by
  have hnew0 := any_new_false fs known hsub
  have hnew1 := any_new_false fs (fs.map (fun f => f.name)) (fun n hn => hn)
  have hgrow : ¬ (fs.map (fun f => f.size)).sum > s0 := not_lt.mpr htot
  refine ⟨?_, by norm_num⟩
  rw [recMonitor_skip 30 ⟨known, 0, s0⟩ 5 fs
        ((10, fs) :: (15, fs) :: (20, fs) :: (25, fs) :: (30, fs) :: (35, fs) :: rest)
        hnew0 hgrow (by norm_num)]
  rw [recMonitor_skip 30 ⟨fs.map (fun f => f.name), 0, s0⟩ 10 fs
        ((15, fs) :: (20, fs) :: (25, fs) :: (30, fs) :: (35, fs) :: rest)
        hnew1 hgrow (by norm_num)]
  rw [recMonitor_skip 30 ⟨fs.map (fun f => f.name), 0, s0⟩ 15 fs
        ((20, fs) :: (25, fs) :: (30, fs) :: (35, fs) :: rest)
        hnew1 hgrow (by norm_num)]
  rw [recMonitor_skip 30 ⟨fs.map (fun f => f.name), 0, s0⟩ 20 fs
        ((25, fs) :: (30, fs) :: (35, fs) :: rest)
        hnew1 hgrow (by norm_num)]
  rw [recMonitor_skip 30 ⟨fs.map (fun f => f.name), 0, s0⟩ 25 fs
        ((30, fs) :: (35, fs) :: rest)
        hnew1 hgrow (by norm_num)]
  rw [recMonitor_skip 30 ⟨fs.map (fun f => f.name), 0, s0⟩ 30 fs
        ((35, fs) :: rest)
        hnew1 hgrow (by norm_num)]
  rw [recMonitor_fire 30 ⟨fs.map (fun f => f.name), 0, s0⟩ 35 fs rest
        hnew1 hgrow (by norm_num)]

/-- C7 witness: the amended theorem applied to a concrete stalled session
with one already-known segment file of size 7 that never grows. -/
theorem c7_amended_witness :
    recorderMonitorPolls 30 ⟨["a.mp4"], 0, 7⟩
      ((5, [⟨"a.mp4", 7⟩]) :: (10, [⟨"a.mp4", 7⟩]) :: (15, [⟨"a.mp4", 7⟩]) ::
       (20, [⟨"a.mp4", 7⟩]) :: (25, [⟨"a.mp4", 7⟩]) :: (30, [⟨"a.mp4", 7⟩]) ::
       (35, [⟨"a.mp4", 7⟩]) :: []) = some 35 ∧
    (35 : ℚ) ≤ 30 + 5 :=
  c7_amended ["a.mp4"] [⟨"a.mp4", 7⟩] 7 [] (by decide) (by simp)

/-- C8 counterexample: starting from a running supervisor with a live
process and a monitor task, two successive stop() calls publish two
"stopped" status events - one per call - not exactly one in total as the
claim states. -/
theorem c8_counterexample :
    (doubleStopEffects ⟨true, true, true⟩).count StopEffect.statusStopped = 2 ∧
    (doubleStopEffects ⟨true, true, true⟩).count StopEffect.statusStopped ≠ 1 := by
  refine ⟨by decide, by decide⟩

/-- C8 amended: calling stop() twice in succession is not an error; each
call publishes exactly one "stopped" status event (so two in total), the
first call terminates the process, and the second call finds no process
handle and terminates nothing. -/
theorem c8_amended (st : SupervisorState) :
    (stopSupervisor st).2.count StopEffect.statusStopped = 1 ∧
    (stopSupervisor (stopSupervisor st).1).2.count StopEffect.statusStopped = 1 ∧
    (stopSupervisor (stopSupervisor st).1).2.count StopEffect.terminateProcess = 0 ∧
    (doubleStopEffects st).count StopEffect.statusStopped = 2 := by
  rcases st with ⟨r, p, t⟩
  cases r <;> cases p <;> cases t <;> decide

/-- C9 counterexample: with the last motion exactly 5 s ago and no motion
on the current frame, _update_sampling_rate keeps the FAST interval
(0.2 s), while the claim's "5 s - 30 s since last motion is NORMAL" band
demands the NORMAL interval (0.5 s). -/
theorem c9_counterexample :
    (updateSamplingRate ⟨NORMAL_INTERVAL, some 0⟩ false 5).currentInterval = FAST_INTERVAL ∧
    (5 : ℚ) - 0 = 5 ∧
    FAST_INTERVAL ≠ NORMAL_INTERVAL := by
  refine ⟨?_, by norm_num, ?_⟩ <;>
    norm_num [updateSamplingRate, FAST_INTERVAL, NORMAL_INTERVAL, IDLE_INTERVAL]

/-- The sampling interval as the amended claim words it: motion on the
current frame gives FAST; with no motion ever recorded, NORMAL; otherwise
at most 5 s since the last motion gives FAST, more than 5 s and at most
30 s gives NORMAL, and more than 30 s gives IDLE. -/
def claimSamplingInterval (st : SamplingState) (hasMotion : Bool) (now : ℚ) : ℚ :=
  if hasMotion then FAST_INTERVAL
  else
    match st.lastMotionTime with
    | none => NORMAL_INTERVAL
    | some t =>
        if now - t ≤ 5 then FAST_INTERVAL
        else if now - t ≤ 30 then NORMAL_INTERVAL
        else IDLE_INTERVAL

/-- C9 amended: after every frame the interval is exactly the claimed pure
function of motion recency with the 5 s boundary on the FAST side (at most
5 s idle stays FAST; NORMAL starts strictly after 5 s), and the motion
timestamp is recorded exactly on frames with motion. -/
theorem c9_amended (st : SamplingState) (hasMotion : Bool) (now : ℚ) :
    updateSamplingRate st hasMotion now =
      ⟨claimSamplingInterval st hasMotion now,
       if hasMotion then some now else st.lastMotionTime⟩ := by
  cases hasMotion with
  | true => rfl
  | false =>
      rcases st with ⟨ci, _ | t⟩
      · rfl
      · simp only [updateSamplingRate, claimSamplingInterval]
        split_ifs <;> first | rfl | (exfalso; linarith)

/-- C10: stop() leaves no playlist (is_playlist_ready is false immediately
after it) and no .ts or .m3u8 file on disk; start() on a stopped streamer
cleans every .ts and .m3u8 file before launching the new session; and
start() on an already-running streamer launches nothing and touches
nothing. -/
theorem c10_hls_cleanup (st : HlsState) (files : List String) :
    isPlaylistReady (hlsStop st files).2 = false ∧
    (hlsStop st files).2.all (fun f => !(isTsFile f || isM3u8File f)) = true ∧
    (hlsStart ⟨false⟩ files).2.1.all (fun f => !(isTsFile f || isM3u8File f)) = true ∧
    (hlsStart ⟨false⟩ files).2.2 = true ∧
    hlsStart ⟨true⟩ files = (⟨true⟩, files, false) := by
  refine ⟨cleanup_playlist_gone files, cleanup_all_clean files, ?_, rfl, rfl⟩
  show (cleanupOldSegments files).all (fun f => !(isTsFile f || isM3u8File f)) = true
  exact cleanup_all_clean files

end SecCam
